import Mathlib

/-!
Verification of the calling-convention lowering layer of a CIR code
generator (`clang/lib/CIR/CodeGen/CIRGenCall.cpp`) against its
natural-language specification.

The development is a shallow embedding: each C++ function relevant to a
claim is translated into an executable Lean definition that mirrors the
source's control flow.  `llvm_unreachable`, failed `assert`s and other
internal faults are modelled by returning `Option.none`; external
collaborators (the type-conversion oracle, the ABI policy object) are
passed in as explicit parameters.
-/

namespace CIRGenCallSpec

/-- A canonical source-level type (`clang::CanQualType`), kept abstract:
only identity matters to the calling-convention layer. -/
structure CanQualType where
  id : Nat
deriving DecidableEq, Repr

/-- Shorthand for building abstract canonical types in examples. -/
def ct (n : Nat) : CanQualType := ⟨n⟩

/-- A machine-level type (`mlir::Type` restricted to the CIR dialect cases
this layer inspects).  `null` models a null `mlir::Type` handle. -/
inductive CirType where
  | null
  | void
  | int (signed : Bool) (width : Nat)
  | record (id : Nat)
  | ptr (pointee : CirType)
  | float (kind : Nat)
deriving DecidableEq, Repr

/-- `mlir::isa<cir::IntType>`. -/
def CirType.isIntType : CirType → Bool
  | .int _ _ => true
  | _ => false

/-- `mlir::isa<cir::RecordType>`. -/
def CirType.isRecordType : CirType → Bool
  | .record _ => true
  | _ => false

/-- `clang::RequiredArgs`: either all arguments are required (non-variadic
descriptor) or only the first `n` are and the rest form the variadic
optional tail. -/
inductive RequiredArgs where
  | all
  | upTo (n : Nat)
deriving DecidableEq, Repr

/-- `RequiredArgs::allowsOptionalArgs`. -/
def RequiredArgs.allowsOptionalArgs : RequiredArgs → Bool
  | .all => false
  | .upTo _ => true

/-- `RequiredArgs::getNumRequiredArgs` (only meaningful when optional
arguments are allowed, as in the source). -/
def RequiredArgs.numRequired : RequiredArgs → Nat
  | .all => 0
  | .upTo n => n

/-- `clang::FunctionProtoType::ExtParameterInfo`, reduced to the one
capability this layer queries. -/
structure ExtParameterInfo where
  hasPassObjectSize : Bool := false
deriving DecidableEq, Repr, Inhabited

/-- `clang::FunctionType::ExtInfo`: the bits `CIRGenFunctionInfo::create`
copies out of it. -/
structure FunctionExtInfo where
  cc : Nat := 0
  noReturn : Bool := false
  producesResult : Bool := false
  noCallerSavedRegs : Bool := false
  noCfCheck : Bool := false
  cmseNSCall : Bool := false
  hasRegParm : Bool := false
  regParm : Nat := 0
deriving DecidableEq, Repr, Inhabited

/-- The Function-Signature Descriptor (`CIRGenFunctionInfo`).  The source
stores the return type as slot 0 of one trailing buffer; here the return
type and the argument types are separate fields (the spec notes the
single-allocation layout is an optimization, not a semantic requirement). -/
structure CIRGenFunctionInfo where
  callingConvention : Nat
  effectiveCallingConvention : Nat
  astCallingConvention : Nat
  instanceMethod : Bool
  chainCall : Bool
  cmseNSCall : Bool
  noReturn : Bool
  returnsRetained : Bool
  noCallerSavedRegs : Bool
  noCfCheck : Bool
  required : RequiredArgs
  hasRegParm : Bool
  regParm : Nat
  numArgs : Nat
  hasExtParameterInfos : Bool
  returnType : CanQualType
  arguments : List CanQualType
  extParamInfos : List ExtParameterInfo
deriving DecidableEq, Repr

/-- `CIRGenFunctionInfo::create` (CIRGenCall.cpp:41-79).  The two leading
`assert`s are modelled as fault (`none`) outcomes; otherwise the factory
fills every field exactly as the source does. -/
def CIRGenFunctionInfo.create (cirCC : Nat) (instanceMethod chainCall : Bool)
    (info : FunctionExtInfo) (paramInfos : List ExtParameterInfo)
    (resultType : CanQualType) (argTypes : List CanQualType)
    (required : RequiredArgs) : Option CIRGenFunctionInfo :=
  if !(paramInfos.isEmpty || paramInfos.length == argTypes.length) then
    Option.none
  else if !(!required.allowsOptionalArgs || required.numRequired ≤ argTypes.length) then
    Option.none
  else
    Option.some
      { callingConvention := cirCC
        effectiveCallingConvention := cirCC
        astCallingConvention := info.cc
        instanceMethod := instanceMethod
        chainCall := chainCall
        cmseNSCall := info.cmseNSCall
        noReturn := info.noReturn
        returnsRetained := info.producesResult
        noCallerSavedRegs := info.noCallerSavedRegs
        noCfCheck := info.noCfCheck
        required := required
        hasRegParm := info.hasRegParm
        regParm := info.regParm
        numArgs := argTypes.length
        hasExtParameterInfos := !paramInfos.isEmpty
        returnType := resultType
        arguments := argTypes
        extParamInfos := paramInfos }

/-- `cir::FnInfoOpts` (clang/CIR/FnInfoOpts.h), as used by the arrangement
entry points. -/
inductive FnInfoOpts where
  | noOpts
  | isInstanceMethod
  | isChainCall
  | isDelegateCall
deriving DecidableEq, Repr

/-- Modelled from the spec: `CIRGenTypes::arrangeCIRFunctionInfo` (declared
in CIRGenTypes.h, defined outside the provided sources) deduplicates
structurally identical signatures in a cache and otherwise constructs the
descriptor through the `create` factory; the spec states memoization is an
optimization correctness does not require, so the cache is omitted.
`ccLower` stands for the `clangCallConvToCIRCallConv` lowering of the
source calling convention. -/
def arrangeCIRFunctionInfoCGT (ccLower : Nat → Nat) (resultType : CanQualType)
    (opts : FnInfoOpts) (argTypes : List CanQualType) (info : FunctionExtInfo)
    (paramInfos : List ExtParameterInfo) (required : RequiredArgs) :
    Option CIRGenFunctionInfo :=
  CIRGenFunctionInfo.create (ccLower info.cc)
    (opts == FnInfoOpts.isInstanceMethod) (opts == FnInfoOpts.isChainCall)
    info paramInfos resultType argTypes required

/-- `clang::ExceptionSpecificationType`. -/
inductive ExceptionSpecificationType where
  | estNone
  | dynamicNone
  | dynamic
  | msAny
  | noThrow
  | basicNoexcept
  | dependentNoexcept
  | noexceptFalse
  | noexceptTrue
  | unevaluated
  | uninstantiated
  | unparsed
deriving DecidableEq, Repr

/-- `clang::isUnresolvedExceptionSpec`: an exception specification still
being computed (unevaluated or uninstantiated). -/
def isUnresolvedExceptionSpec : ExceptionSpecificationType → Bool
  | .unevaluated => true
  | .uninstantiated => true
  | _ => false

/-- `clang::FunctionProtoType`, reduced to what this layer queries.
`extParamInfos` is `some` exactly when `hasExtParameterInfos()`;
`nothrow` is the `FPT->isNothrow()` oracle. -/
structure FunctionProtoTypeModel where
  returnType : CanQualType
  params : List CanQualType
  variadic : Bool
  extParamInfos : Option (List ExtParameterInfo)
  extInfo : FunctionExtInfo
  exceptionSpecType : ExceptionSpecificationType := .estNone
  nothrow : Bool := false
deriving DecidableEq, Repr

/-- A source function type: prototyped or unprototyped
(`FunctionProtoType` vs `FunctionNoProtoType`). -/
inductive FunctionSrcType where
  | noProto (returnType : CanQualType) (extInfo : FunctionExtInfo)
  | proto (p : FunctionProtoTypeModel)
deriving DecidableEq, Repr

/-- Modelled from the spec: `RequiredArgs::forPrototypePlus` (declared in a
header outside the provided sources).  Per the spec, the required-argument
count of a variadic prototype is the number of formal parameters plus any
already-inserted implicit/prefix arguments (and the synthetic object-size
companions); a non-variadic prototype requires all arguments. -/
def RequiredArgs.forPrototypePlus (p : FunctionProtoTypeModel)
    (additional : Nat) : RequiredArgs :=
  if !p.variadic then .all
  else
    let extra :=
      match p.extParamInfos with
      | Option.none => 0
      | Option.some infos => (infos.filter (·.hasPassObjectSize)).length
    .upTo (p.params.length + additional + extra)

/-- Pad a list with default entries up to length `n`
(`SmallVector::resize` growing case). -/
def padTo (l : List ExtParameterInfo) (n : Nat) : List ExtParameterInfo :=
  l ++ List.replicate (n - l.length) default

/-- `addExtParameterInfosForCall` (CIRGenCall.cpp:929-953): pad the prefix
with default infos, copy the prototype's infos inserting a default entry
after each pass-object-size parameter, then pad to the total argument
count.  The three `assert`s are fault outcomes. -/
def addExtParameterInfosForCall (paramInfos : List ExtParameterInfo)
    (protoInfos : List ExtParameterInfo) (prefixArgs totalArgs : Nat) :
    Option (List ExtParameterInfo) :=
  if !(paramInfos.length ≤ prefixArgs) then Option.none
  else if !(protoInfos.length + prefixArgs ≤ totalArgs) then Option.none
  else
    let r := padTo paramInfos prefixArgs
    let r := protoInfos.foldl
      (fun acc i =>
        if i.hasPassObjectSize then acc ++ [i, default] else acc ++ [i]) r
    if !(r.length ≤ totalArgs) then Option.none
    else Option.some (padTo r totalArgs)

/-- The parameter-expansion loop of `appendParameterTypes`
(CIRGenCall.cpp:978-982): each formal parameter is copied and a synthetic
size-typed argument is inserted right after any parameter carrying
pass-object-size. -/
def expandParams (sizeTy : CanQualType) : List CanQualType →
    List ExtParameterInfo → List CanQualType
  | [], _ => []
  | t :: ts, [] => t :: expandParams sizeTy ts []
  | t :: ts, i :: is =>
    if i.hasPassObjectSize then t :: sizeTy :: expandParams sizeTy ts is
    else t :: expandParams sizeTy ts is

/-- `appendParameterTypes` (CIRGenCall.cpp:958-986): append the prototype's
formal parameters (with object-size expansion) to the given prefix and
extend the parallel extended-info sequence.  `sizeTy` is the context's
`getSizeType()`. -/
def appendParameterTypes (sizeTy : CanQualType) (pre : List CanQualType)
    (paramInfos : List ExtParameterInfo) (fpt : FunctionProtoTypeModel) :
    Option (List CanQualType × List ExtParameterInfo) :=
  match fpt.extParamInfos with
  | Option.none =>
    if !paramInfos.isEmpty then Option.none
    else Option.some (pre ++ fpt.params, paramInfos)
  | Option.some infos =>
    if !(infos.length == fpt.params.length) then Option.none
    else
      let newArgs := pre ++ expandParams sizeTy fpt.params infos
      (addExtParameterInfosForCall paramInfos infos pre.length
        newArgs.length).map (fun pis => (newArgs, pis))

/-- The file-static `arrangeCIRFunctionInfo` (CIRGenCall.cpp:1061-1073):
lay out a prototyped function on top of already-inserted implicit
parameters. -/
def arrangeCIRFunctionInfoOnTop (ccLower : Nat → Nat) (sizeTy : CanQualType)
    (opts : FnInfoOpts) (pre : List CanQualType)
    (ftp : FunctionProtoTypeModel) : Option CIRGenFunctionInfo :=
  let required := RequiredArgs.forPrototypePlus ftp pre.length
  match appendParameterTypes sizeTy pre [] ftp with
  | Option.none => Option.none
  | Option.some (argTypes, paramInfos) =>
    arrangeCIRFunctionInfoCGT ccLower ftp.returnType opts argTypes
      ftp.extInfo paramInfos required

/-- `CIRGenTypes::arrangeFreeFunctionType(CanQual<FunctionProtoType>)`
(CIRGenCall.cpp:1077-1081). -/
def arrangeFreeFunctionTypeProto (ccLower : Nat → Nat) (sizeTy : CanQualType)
    (ftp : FunctionProtoTypeModel) : Option CIRGenFunctionInfo :=
  arrangeCIRFunctionInfoOnTop ccLower sizeTy FnInfoOpts.noOpts [] ftp

/-- `CIRGenTypes::arrangeFreeFunctionType(CanQual<FunctionNoProtoType>)`
(CIRGenCall.cpp:1085-1092): an unprototyped type is arranged as variadic
with zero required arguments. -/
def arrangeFreeFunctionTypeNoProto (ccLower : Nat → Nat)
    (returnType : CanQualType) (extInfo : FunctionExtInfo) :
    Option CIRGenFunctionInfo :=
  arrangeCIRFunctionInfoCGT ccLower returnType FnInfoOpts.noOpts [] extInfo []
    (RequiredArgs.upTo 0)

/-- `CIRGenTypes::arrangeCXXMethodType` (CIRGenCall.cpp:1342-1354):
prepend the implicit receiver and chain to the prototyped layout (the
source passes `FnInfoOpts::IsChainCall` here). -/
def arrangeCXXMethodType (ccLower : Nat → Nat) (sizeTy : CanQualType)
    (thisType : CanQualType) (ftp : FunctionProtoTypeModel) :
    Option CIRGenFunctionInfo :=
  arrangeCIRFunctionInfoOnTop ccLower sizeTy FnInfoOpts.isChainCall [thisType]
    ftp

/-- A function declaration as seen by `arrangeFunctionDeclaration`:
whether it is an instance C++ method (with its ABI-derived receiver type
and any CUDA kernel rewrite) and its canonical function type. -/
structure FunctionDeclModel where
  isInstanceCXXMethod : Bool
  thisType : CanQualType
  hasCUDAGlobalAttr : Bool
  fnType : FunctionSrcType
deriving DecidableEq, Repr

/-- `CIRGenTypes::arrangeFunctionDeclaration` (CIRGenCall.cpp:1358-1378),
with `arrangeCXXMethodDeclaration` (CIRGenCall.cpp:1320-1335) inlined for
the instance-method branch.  `cudaRewrite` is the target-specific
`setCUDAKernelCallingConvention` oracle.  A function declared without a
prototype is arranged with a NON-variadic type (`RequiredArgs::All`). -/
def arrangeFunctionDeclaration (ccLower : Nat → Nat) (sizeTy : CanQualType)
    (cudaRewrite : FunctionProtoTypeModel → FunctionProtoTypeModel)
    (fd : FunctionDeclModel) : Option CIRGenFunctionInfo :=
  if fd.isInstanceCXXMethod then
    match fd.fnType with
    | .noProto _ _ => Option.none
    | .proto p =>
      let p := if fd.hasCUDAGlobalAttr then cudaRewrite p else p
      arrangeCXXMethodType ccLower sizeTy fd.thisType p
  else
    match fd.fnType with
    | .noProto returnType extInfo =>
      arrangeCIRFunctionInfoCGT ccLower returnType FnInfoOpts.noOpts []
        extInfo [] RequiredArgs.all
    | .proto p => arrangeFreeFunctionTypeProto ccLower sizeTy p

/-- `arrangeFreeFunctionLikeCall` (CIRGenCall.cpp:1218-1252).  `argTys` is
the already-canonicalized type of each evaluated call argument.  For an
unprototyped callee the required count is the number of actual
arguments. -/
def arrangeFreeFunctionLikeCall (ccLower : Nat → Nat) (sizeTy : CanQualType)
    (argTys : List CanQualType) (fnType : FunctionSrcType)
    (numExtraRequiredArgs : Nat) (chainCall : FnInfoOpts) :
    Option CIRGenFunctionInfo :=
  if !(numExtraRequiredArgs ≤ argTys.length) then Option.none
  else if chainCall == FnInfoOpts.isChainCall then Option.none
  else
    match fnType with
    | .proto p =>
      let required :=
        if p.variadic then RequiredArgs.forPrototypePlus p numExtraRequiredArgs
        else RequiredArgs.all
      let paramInfosOpt :=
        match p.extParamInfos with
        | Option.none => Option.some ([] : List ExtParameterInfo)
        | Option.some infos =>
          addExtParameterInfosForCall [] infos numExtraRequiredArgs
            argTys.length
      match paramInfosOpt with
      | Option.none => Option.none
      | Option.some paramInfos =>
        arrangeCIRFunctionInfoCGT ccLower p.returnType chainCall argTys
          p.extInfo paramInfos required
    | .noProto returnType extInfo =>
      arrangeCIRFunctionInfoCGT ccLower returnType chainCall argTys extInfo []
        (RequiredArgs.upTo argTys.length)

/-- `CIRGenTypes::arrangeFreeFunctionCall` (CIRGenCall.cpp:1298-1304):
chain calls are an unimplemented fault; otherwise a free-function-like
call with no extra required arguments. -/
def arrangeFreeFunctionCall (ccLower : Nat → Nat) (sizeTy : CanQualType)
    (argTys : List CanQualType) (fnType : FunctionSrcType)
    (chainCall : Bool) : Option CIRGenFunctionInfo :=
  if chainCall then Option.none
  else arrangeFreeFunctionLikeCall ccLower sizeTy argTys fnType 0
    FnInfoOpts.noOpts

/-- `clang::CXXCtorType`: which variant of a constructor is being
arranged. -/
inductive CXXCtorType where
  | complete
  | base
  | comdat
deriving DecidableEq, Repr

/-- `CIRGenTypes::inheritingCtorHasParams` (CIRGenCall.cpp:1145-1153):
parameters are unnecessary (result `false`) only when constructing a base
class subobject whose inherited constructor lives in a virtual base under
an ABI with constructor variants. -/
def inheritingCtorHasParams (shadowConstructsVirtualBase : Bool)
    (type : CXXCtorType) (abiHasConstructorVariants : Bool) : Bool :=
  type == CXXCtorType.complete || !shadowConstructsVirtualBase ||
    !abiHasConstructorVariants

/-- The ABI policy object, as queried by structor arrangement. -/
structure ABIPolicyModel where
  hasConstructorVariants : Bool
  structorPrefixTypes : List CanQualType
  structorSuffixTypes : List CanQualType
  hasThisReturn : Bool
  hasMostDerivedReturn : Bool
  voidTy : CanQualType
  voidPtrTy : CanQualType
deriving DecidableEq, Repr

/-- Modelled from the spec: `CIRGenCXXABI::buildStructorSignature` (outside
the provided sources) adds the ABI-specific prefix/suffix arguments the
structor variant requires and reports their counts; per the source's note
"prefix implies after the first param", prefix arguments are inserted
right after the implicit receiver. -/
def buildStructorSignature (abi : ABIPolicyModel)
    (argTypes : List CanQualType) : List CanQualType × Nat × Nat :=
  (argTypes.take 1 ++ abi.structorPrefixTypes ++ argTypes.drop 1 ++
      abi.structorSuffixTypes,
    abi.structorPrefixTypes.length, abi.structorSuffixTypes.length)

/-- A constructor/destructor declaration as seen by
`arrangeCXXStructorDeclaration`.  `inheritedCtor` is `some b` when the
declaration is a constructor inheriting from a base whose shadow
declaration constructs a virtual base iff `b`. -/
structure StructorDeclModel where
  thisType : CanQualType
  inheritedCtor : Option Bool
  formalType : FunctionProtoTypeModel
deriving DecidableEq, Repr

/-- `CIRGenTypes::arrangeCXXStructorDeclaration` (CIRGenCall.cpp:988-1039):
start from the implicit receiver, forward the formal parameters unless an
inheriting constructor may drop them, add ABI structor arguments, and
build the descriptor.  The `assert(false)` on a non-empty extended-info
sequence and the `HasThisReturn` assert are fault outcomes. -/
def arrangeCXXStructorDeclaration (ccLower : Nat → Nat)
    (sizeTy : CanQualType) (abi : ABIPolicyModel) (md : StructorDeclModel)
    (ctorType : CXXCtorType) : Option CIRGenFunctionInfo :=
  let argTypes0 := [md.thisType]
  let passParams :=
    match md.inheritedCtor with
    | Option.none => true
    | Option.some constructsVB =>
      inheritingCtorHasParams constructsVB ctorType abi.hasConstructorVariants
  let ftp := md.formalType
  match (if passParams then appendParameterTypes sizeTy argTypes0 [] ftp
         else Option.some (argTypes0, ([] : List ExtParameterInfo))) with
  | Option.none => Option.none
  | Option.some (argTypes1, paramInfos) =>
    let argTypes := (buildStructorSignature abi argTypes1).1
    if !paramInfos.isEmpty then Option.none
    else
      let required :=
        if passParams && ftp.variadic then RequiredArgs.upTo argTypes.length
        else RequiredArgs.all
      if abi.hasThisReturn then Option.none
      else
        let resultType :=
          if abi.hasMostDerivedReturn then abi.voidPtrTy else abi.voidTy
        arrangeCIRFunctionInfoCGT ccLower resultType
          FnInfoOpts.isInstanceMethod argTypes ftp.extInfo paramInfos required

/-- `cir::FuncType`: the machine-level function type. -/
structure FuncType where
  inputs : List CirType
  result : CirType
  varArg : Bool
deriving DecidableEq, Repr

/-- Modelled from the spec: `CIRGenFunctionInfo::isVariadic` (header
outside the provided sources) — the descriptor is variadic when its
required-arguments marker allows optional arguments. -/
def CIRGenFunctionInfo.isVariadic (fi : CIRGenFunctionInfo) : Bool :=
  fi.required.allowsOptionalArgs

/-- Modelled from the spec: `CIRGenFunctionInfo::getNumRequiredArgs`
(header outside the provided sources) — all arguments for a non-variadic
descriptor, the marker's count otherwise. -/
def CIRGenFunctionInfo.getNumRequiredArgs (fi : CIRGenFunctionInfo) : Nat :=
  if fi.isVariadic then fi.required.numRequired else fi.arguments.length

/-- Modelled from the spec: `CIRGenFunctionInfo::requiredArguments` (header
outside the provided sources) — the prefix of the argument-type sequence
that is mandatory, i.e. the first `getNumRequiredArgs` entries. -/
def CIRGenFunctionInfo.requiredArguments (fi : CIRGenFunctionInfo) :
    List CanQualType :=
  fi.arguments.take fi.getNumRequiredArgs

/-- `CIRGenTypes::GetFunctionType(const CIRGenFunctionInfo &)`
(CIRGenCall.cpp:94-114).  `beingProcessed` is the `FunctionsBeingProcessed`
in-progress set (descriptors identified by `fiId`); a failed insertion is
the "Recursively being processed?" assertion fault.  `convert` is the
type-conversion oracle; a null converted return type is replaced by the
void type. -/
def GetFunctionType (convert : CanQualType → CirType)
    (beingProcessed : List Nat) (fiId : Nat) (fi : CIRGenFunctionInfo) :
    Option (FuncType × List Nat) :=
  if beingProcessed.contains fiId then Option.none
  else
    let inProgress := fiId :: beingProcessed
    let resultType := convert fi.returnType
    let argTypes := fi.requiredArguments.map convert
    let afterErase := inProgress.erase fiId
    Option.some
      ({ inputs := argTypes
         result := if resultType == CirType.null then CirType.void
                   else resultType
         varArg := fi.isVariadic }, afterErase)

/-- An evaluated scalar value, identified by its machine type (and a tag
to tell distinct values of the same type apart). -/
structure CirValue where
  tag : Nat := 0
  ty : CirType
deriving DecidableEq, Repr

/-- An addressable memory location (`Address`): a base identity plus the
machine type of the pointed-to element. -/
structure Address where
  base : Nat
  elementType : CirType
deriving DecidableEq, Repr

/-- Modelled from the spec: `CIRGenBuilderTy::createElementBitCast`
(outside the provided sources) reinterprets an address as a pointer to the
destination element type; when the destination already equals the
address's element type the address is returned unchanged (the spec's
"straight load with no bit-reinterpretation step" for matching shapes). -/
def createElementBitCast (addr : Address) (destTy : CirType) : Address :=
  if addr.elementType == destTy then addr
  else { addr with elementType := destTy }

/-- What the Argument Materializer pushed for a scalar slot: the evaluated
value unchanged, or that value run through a bitcast to the function
type's input. -/
inductive ScalarArgResult where
  | direct (v : CirValue)
  | bitcasted (v : CirValue) (target : CirType)
deriving DecidableEq, Repr

/-- What the Argument Materializer pushed for an aggregate slot: a load of
the full value from the given address. -/
inductive AggArgResult where
  | loaded (src : Address)
deriving DecidableEq, Repr

/-- One materialized call operand. -/
inductive CallArgMaterialized where
  | scalar (r : ScalarArgResult)
  | aggregate (r : AggArgResult)
deriving DecidableEq, Repr

/-- One slot of the Call Argument List as the materializer consumes it:
either a simple scalar r-value, or an address-bearing aggregate (an
l-value or an aggregate r-value's backing memory). -/
inductive CallArgSlot where
  | scalarVal (v : CirValue)
  | aggregate (addr : Address)
deriving DecidableEq, Repr

/-- The scalar branch of the per-argument loop of `CIRGenFunction::emitCall`
(CIRGenCall.cpp:478-494).  Any integer-typed value whose type differs from
the converted parameter type is the `llvm_unreachable("NYI")` fault ("we
might have to widen integers, but we should never truncate"); a surviving
value that differs from the function type's input at this position is
bitcast to it. -/
def materializeScalarArg (argType : CirType) (v : CirValue)
    (funcInputs : List CirType) (argNo : Nat) : Option ScalarArgResult :=
  if argType != v.ty && v.ty.isIntType then Option.none
  else
    match funcInputs[argNo]? with
    | Option.some inTy =>
      if v.ty != inTy then Option.some (ScalarArgResult.bitcasted v inTy)
      else Option.some (ScalarArgResult.direct v)
    | Option.none => Option.some (ScalarArgResult.direct v)

/-- The aggregate branch of the per-argument loop of
`CIRGenFunction::emitCall` (CIRGenCall.cpp:495-539).  A source shape
differing from the coerced record shape is the `llvm_unreachable("NYI")`
fault; otherwise the address is passed through `createElementBitCast` and
the whole value loaded from it. -/
def materializeAggArg (argType : CirType) (src : Address) :
    Option AggArgResult :=
  if src.elementType != argType then Option.none
  else Option.some (AggArgResult.loaded (createElementBitCast src argType))

/-- One iteration of the argument-materialization loop of
`CIRGenFunction::emitCall` (CIRGenCall.cpp:473-540), dispatching on
whether the converted parameter type is a record.  A scalar slot feeding
an aggregate parameter (or vice versa) is an assertion/unreachable
fault. -/
def materializeCallArg (argType : CirType) (slot : CallArgSlot)
    (funcInputs : List CirType) (argNo : Nat) :
    Option CallArgMaterialized :=
  if !argType.isRecordType then
    match slot with
    | CallArgSlot.aggregate _ => Option.none
    | CallArgSlot.scalarVal v =>
      (materializeScalarArg argType v funcInputs argNo).map
        CallArgMaterialized.scalar
  else
    match slot with
    | CallArgSlot.scalarVal _ => Option.none
    | CallArgSlot.aggregate src =>
      (materializeAggArg argType src).map CallArgMaterialized.aggregate

/-- The named attribute set this layer synthesizes (a projection of
`mlir::NamedAttrList` onto the attributes the code can actually set). -/
structure FuncAttrSet where
  noThrow : Bool := false
  noReturn : Bool := false
  convergent : Bool := false
  openCLKernel : Bool := false
  uniformWorkGroup : Bool := false
  cudaKernelName : Bool := false
deriving DecidableEq, Repr

/-- `cir::SideEffect`. -/
inductive SideEffect where
  | all
  | pureEffect
  | constEffect
deriving DecidableEq, Repr

/-- The language/codegen options consulted by attribute synthesis. -/
structure LangOptsModel where
  assumeConvergent : Bool := false
  syclIsDevice : Bool := false
  openCL : Bool := false
  openCLVersion : Nat := 120
  cuda : Bool := false
  hip : Bool := false
  cudaIsDevice : Bool := false
  offloadUniformBlock : Bool := false
deriving DecidableEq, Repr

/-- The callee function declaration, as introspected by
`constructAttributeList`. -/
structure CalleeFnDeclModel where
  protoType : Option FunctionProtoTypeModel
  isNoReturn : Bool
  isVirtualCXXMethod : Bool
deriving DecidableEq, Repr

/-- The callee declaration (`TargetDecl`): attribute presence plus the
function-declaration view when there is one. -/
structure TargetDeclModel where
  hasNoThrowAttr : Bool := false
  hasConstAttr : Bool := false
  hasPureAttr : Bool := false
  hasNoAliasAttr : Bool := false
  hasOpenCLKernelAttr : Bool := false
  hasCUDAGlobalAttr : Bool := false
  asFunctionDecl : Option CalleeFnDeclModel := Option.none
deriving DecidableEq, Repr

/-- `AddAttributesFromFunctionProtoType` (CIRGenCall.cpp:156-168): set the
no-throw attribute only when the prototype's exception specification is
not unresolved and is non-throwing. -/
def addAttributesFromFunctionProtoType (attrs : FuncAttrSet)
    (fpt : Option FunctionProtoTypeModel) : FuncAttrSet :=
  match fpt with
  | Option.none => attrs
  | Option.some p =>
    if !isUnresolvedExceptionSpec p.exceptionSpecType && p.nothrow then
      { attrs with noThrow := true }
    else attrs

/-- `getTrivialDefaultFunctionAttributes` (CIRGenCall.cpp:1411-1437):
convergence for convergent languages, a fault for SYCL device code, and
no-throw for OpenCL / CUDA and HIP device code. -/
def getTrivialDefaultFunctionAttributesModel (lo : LangOptsModel)
    (attrs : FuncAttrSet) : Option FuncAttrSet :=
  let attrs :=
    if lo.assumeConvergent then { attrs with convergent := true } else attrs
  if lo.syclIsDevice then Option.none
  else if lo.openCL || ((lo.cuda || lo.hip) && lo.cudaIsDevice) then
    Option.some { attrs with noThrow := true }
  else Option.some attrs

/-- `CIRGenModule::getDefaultFunctionAttributes` (CIRGenCall.cpp:1447-1457)
adds nothing beyond the trivial defaults in this implementation. -/
def getDefaultFunctionAttributesModel (lo : LangOptsModel)
    (attrs : FuncAttrSet) : Option FuncAttrSet :=
  getTrivialDefaultFunctionAttributesModel lo attrs

/-- The `dyn_cast<FunctionDecl>` sub-block of `constructAttributeList`
(CIRGenCall.cpp:228-249): add the declaration's own prototype attributes;
the no-return / no-builtin propagation guarded by
`!(AttrOnCallSite && IsVirtualCall)` has an EMPTY body in the source
(`if (Fn->isNoReturn()) ;`), faithfully kept here as an if with identical
branches. -/
def fnDeclAttributes (attrs : FuncAttrSet) (fn : CalleeFnDeclModel)
    (attrOnCallSite : Bool) : FuncAttrSet :=
  let attrs := addAttributesFromFunctionProtoType attrs fn.protoType
  if !(attrOnCallSite && fn.isVirtualCXXMethod) then
    (if fn.isNoReturn then attrs else attrs)
  else attrs

/-- The OpenCL kernel marker sub-block of `constructAttributeList`
(CIRGenCall.cpp:277-296). -/
def openCLKernelAttributes (lo : LangOptsModel) (attrs : FuncAttrSet)
    (td : TargetDeclModel) : FuncAttrSet :=
  if td.hasOpenCLKernelAttr then
    let attrs := { attrs with openCLKernel := true }
    if lo.openCLVersion ≤ 120 then { attrs with uniformWorkGroup := true }
    else if lo.offloadUniformBlock then { attrs with uniformWorkGroup := true }
    else attrs
  else attrs

/-- The CUDA kernel-name sub-block of `constructAttributeList`
(CIRGenCall.cpp:302-310). -/
def cudaKernelNameAttribute (lo : LangOptsModel) (attrs : FuncAttrSet)
    (td : TargetDeclModel) : FuncAttrSet :=
  if lo.cuda && !lo.cudaIsDevice && td.hasCUDAGlobalAttr then
    { attrs with cudaKernelName := true }
  else attrs

/-- The `if (TargetDecl)` attribute-accumulation block of
`constructAttributeList` (CIRGenCall.cpp:221-314): the explicit no-throw
attribute, the function-declaration sub-block, and the OpenCL/CUDA kernel
markers. -/
def targetDeclAttributes (lo : LangOptsModel) (attrs : FuncAttrSet)
    (td : TargetDeclModel) (attrOnCallSite : Bool) : FuncAttrSet :=
  let attrs :=
    if td.hasNoThrowAttr then { attrs with noThrow := true } else attrs
  let attrs :=
    match td.asFunctionDecl with
    | Option.none => attrs
    | Option.some fn => fnDeclAttributes attrs fn attrOnCallSite
  cudaKernelNameAttribute lo (openCLKernelAttributes lo attrs td) td

/-- The side-effect classification block of `constructAttributeList`
(CIRGenCall.cpp:258-267): `const` wins over `pure`; a bare `noalias`
annotation changes nothing. -/
def targetDeclSideEffect (td : TargetDeclModel) : SideEffect :=
  if td.hasConstAttr then SideEffect.constEffect
  else if td.hasPureAttr then SideEffect.pureEffect
  else SideEffect.all

/-- `CIRGenModule::constructAttributeList` (CIRGenCall.cpp:187-317):
synthesize the attribute set, effective calling convention and side-effect
classification for a call site or function definition, from the callee
prototype, the target declaration (when any) and the global defaults. -/
def constructAttributeList (lo : LangOptsModel) (fi : CIRGenFunctionInfo)
    (calleeProto : Option FunctionProtoTypeModel)
    (targetDecl : Option TargetDeclModel) (attrOnCallSite : Bool) :
    Option (FuncAttrSet × Nat × SideEffect) :=
  let callingConv := fi.effectiveCallingConvention
  let attrs : FuncAttrSet := {}
  let attrs := addAttributesFromFunctionProtoType attrs calleeProto
  match targetDecl with
  | Option.none =>
    (getDefaultFunctionAttributesModel lo attrs).map
      (fun a => (a, callingConv, SideEffect.all))
  | Option.some td =>
    let attrs := targetDeclAttributes lo attrs td attrOnCallSite
    (getDefaultFunctionAttributesModel lo attrs).map
      (fun a => (a, callingConv, targetDeclSideEffect td))

/-- The may-unwind decision of `CIRGenFunction::emitCall`
(CIRGenCall.cpp:589-608): under SEH everything may throw; an MSVC++
cleanup pad terminates instead of unwinding; otherwise a no-throw
attribute on the call or on the callee proves the call cannot throw. -/
def computeCannotThrow (usesSEHTry cleanupPadScope msvcxxPersonality : Bool)
    (attrs : FuncAttrSet) (calleeExtraNoThrow : Bool) : Bool :=
  if usesSEHTry then false
  else if cleanupPadScope && msvcxxPersonality then true
  else attrs.noThrow || calleeExtraNoThrow

/-- `bool isInvoke = CannotThrow ? false : isInvokeDest();`
(CIRGenCall.cpp:609). -/
def computeIsInvoke (cannotThrow isInvokeDest : Bool) : Bool :=
  if cannotThrow then false else isInvokeDest

/-- The shape of the call construct `emitCallLikeOp`
(CIRGenCall.cpp:319-408) emits: a plain or try-wrapped call, direct or
indirect. -/
inductive EmittedCallKind where
  | direct
  | indirect
  | tryDirect
  | tryIndirect
deriving DecidableEq, Repr

/-- The path selection of `emitCallLikeOp`: the invoke flag picks the
try-wrapped constructs, callee resolution picks direct vs indirect. -/
def emitCallLikeOpKind (isInvoke isIndirect : Bool) : EmittedCallKind :=
  if isInvoke then
    if isIndirect then EmittedCallKind.tryIndirect
    else EmittedCallKind.tryDirect
  else
    if isIndirect then EmittedCallKind.indirect else EmittedCallKind.direct

/-- `cir::TypeEvaluationKind` as dispatched on by return extraction. -/
inductive EvaluationKind where
  | scalar
  | aggregate
  | complexKind
deriving DecidableEq, Repr

/-- The extracted return value of a call. -/
inductive ReturnExtraction where
  | undef
  | aggregateSlot (dest : Address)
  | scalarDirect (v : CirValue)
  | scalarThroughMemory (slot : Address) (v : CirValue)
deriving DecidableEq, Repr

/-- The return-value extraction of `CIRGenFunction::emitCall`
(CIRGenCall.cpp:686-729) together with `getRValueThroughMemory`
(CIRGenCall.cpp:410-419).  A void machine return type yields the undefined
r-value token; the aggregate kind stores the single result into the
caller-supplied (or fresh) slot; the scalar kind round-trips the result
through a temporary slot exactly when the call construct lives in a
different region than the point of use.  Complex kinds, multi-result
calls and scalar results needing a bitcast are faults. -/
def extractCallResult (retCIRTy : CirType) (evalKind : EvaluationKind)
    (results : List CirValue) (returnSlot : Option Address)
    (currentRegion callParentRegion : Nat) (freshTemp : Address) :
    Option ReturnExtraction :=
  if retCIRTy == CirType.void then Option.some ReturnExtraction.undef
  else
    match evalKind with
    | EvaluationKind.aggregate =>
      if 1 < results.length then Option.none
      else
        match results[0]? with
        | Option.none => Option.none
        | Option.some _ =>
          Option.some
            (ReturnExtraction.aggregateSlot (returnSlot.getD freshTemp))
    | EvaluationKind.scalar =>
      if 1 < results.length then Option.none
      else
        match results[0]? with
        | Option.none => Option.none
        | Option.some r =>
          if r.ty != retCIRTy then Option.none
          else if currentRegion != callParentRegion then
            Option.some
              (ReturnExtraction.scalarThroughMemory (returnSlot.getD freshTemp)
                r)
          else Option.some (ReturnExtraction.scalarDirect r)
    | EvaluationKind.complexKind => Option.none

/-! ## Sample values used by witnesses -/

/-- A concrete non-variadic descriptor, for instantiating theorems. -/
def sampleFI : CIRGenFunctionInfo :=
  { callingConvention := 0, effectiveCallingConvention := 0
    astCallingConvention := 0, instanceMethod := false, chainCall := false
    cmseNSCall := false, noReturn := false, returnsRetained := false
    noCallerSavedRegs := false, noCfCheck := false
    required := RequiredArgs.all, hasRegParm := false, regParm := 0
    numArgs := 2, hasExtParameterInfos := false, returnType := ct 0
    arguments := [ct 1, ct 2], extParamInfos := [] }

/-- A concrete variadic descriptor (first of two arguments required). -/
def sampleVariadicFI : CIRGenFunctionInfo :=
  { sampleFI with required := RequiredArgs.upTo 1 }

/-! ## Claims -/

/-- C1, counterexample.  The claim states that *every* arrangement path
treats an unprototyped function type as variadic with zero required
arguments.  On the declaration-arrangement path the code does the
opposite ("When declaring a function without a prototype, always use a
non-variadic type", CIRGenCall.cpp:1369-1375): arranging the declaration
of a concrete unprototyped free function yields a descriptor that is not
variadic. -/
theorem noProtoDeclArrangementNotVariadic :
    (arrangeFunctionDeclaration id (ct 50) id
        { isInstanceCXXMethod := false, thisType := ct 0
          hasCUDAGlobalAttr := false
          fnType := FunctionSrcType.noProto (ct 1) {} }).map
      (fun fi => (fi.isVariadic, fi.required)) =
      Option.some (false, RequiredArgs.all) := by
  decide

/-- C1, amended: only the free-function-type arrangement path treats an
unprototyped function type as variadic with zero required arguments; the
declaration-arrangement path produces a non-variadic descriptor with all
arguments required, and the call-arrangement path produces a variadic
descriptor whose required count equals the number of actual arguments
supplied. -/
theorem noProtoArrangementPerPath (ccLower : Nat → Nat) (sizeTy : CanQualType)
    (cudaRewrite : FunctionProtoTypeModel → FunctionProtoTypeModel)
    (returnType thisTy : CanQualType) (extInfo : FunctionExtInfo)
    (argTys : List CanQualType) :
    ((arrangeFreeFunctionTypeNoProto ccLower returnType extInfo).map
        (fun fi => (fi.isVariadic, fi.required)) =
      Option.some (true, RequiredArgs.upTo 0)) ∧
    ((arrangeFunctionDeclaration ccLower sizeTy cudaRewrite
          { isInstanceCXXMethod := false, thisType := thisTy
            hasCUDAGlobalAttr := false
            fnType := FunctionSrcType.noProto returnType extInfo }).map
        (fun fi => (fi.isVariadic, fi.required)) =
      Option.some (false, RequiredArgs.all)) ∧
    ((arrangeFreeFunctionCall ccLower sizeTy argTys
          (FunctionSrcType.noProto returnType extInfo) false).map
        (fun fi => fi.required) =
      Option.some (RequiredArgs.upTo argTys.length)) := by
  refine ⟨?_, ?_, ?_⟩ <;>
    simp [arrangeFreeFunctionTypeNoProto, arrangeFunctionDeclaration,
      arrangeFreeFunctionCall, arrangeFreeFunctionLikeCall,
      arrangeCIRFunctionInfoCGT, CIRGenFunctionInfo.create,
      CIRGenFunctionInfo.isVariadic, RequiredArgs.allowsOptionalArgs,
      RequiredArgs.numRequired]

/-- C2: every descriptor the `create` factory actually constructs has an
extended-info sequence whose length is zero or exactly the argument
count (the factory's leading assertion, CIRGenCall.cpp:46). -/
theorem extInfoLengthInvariant (cirCC : Nat) (instanceMethod chainCall : Bool)
    (info : FunctionExtInfo) (paramInfos : List ExtParameterInfo)
    (resultType : CanQualType) (argTypes : List CanQualType)
    (required : RequiredArgs) :
    (CIRGenFunctionInfo.create cirCC instanceMethod chainCall info paramInfos
        resultType argTypes required).all
      (fun fi => fi.extParamInfos.length == 0 ||
        fi.extParamInfos.length == fi.arguments.length) = true := by
  cases hc : CIRGenFunctionInfo.create cirCC instanceMethod chainCall info
      paramInfos resultType argTypes required with
  | none => rfl
  | some fi =>
    unfold CIRGenFunctionInfo.create at hc
    split at hc
    · exact absurd hc (by simp)
    next h1 =>
      split at hc
      · exact absurd hc (by simp)
      next _ =>
        injection hc with hfi
        subst hfi
        simp only [Option.all]
        have h1' : (paramInfos.isEmpty ||
            paramInfos.length == argTypes.length) = true := by
          revert h1
          cases paramInfos.isEmpty || paramInfos.length == argTypes.length <;>
            simp
        rcases Bool.or_eq_true_iff.mp h1' with he | hl
        · simp [List.isEmpty_iff.mp he]
        · simp [hl]

/-- C3, counterexample.  The claim states that widening a narrower integer
to the parameter slot's width is permitted.  In the code any integer value
whose type differs from the converted parameter type — narrower included —
hits `llvm_unreachable("NYI")` (CIRGenCall.cpp:484-486): materializing a
16-bit integer for a 32-bit slot faults instead of widening. -/
theorem narrowerIntFaultsNotWidened :
    materializeCallArg (CirType.int true 32)
      (CallArgSlot.scalarVal { ty := CirType.int true 16 })
      [CirType.int true 32] 0 = Option.none := by
  decide

/-- C3, amended: the Argument Materializer never truncates — any
integer-typed value whose machine type differs from the converted
parameter type (wider, narrower or same-width) raises the internal fault;
a value that is not faulted and disagrees with the function type's input
at its position is handed through a bitcast, and a matching value is
passed directly. -/
theorem scalarArgNoTruncation (argType : CirType) (v : CirValue)
    (funcInputs : List CirType) (argNo : Nat) (t : CirType)
    (hrec : argType.isRecordType = false) :
    (v.ty.isIntType = true → v.ty ≠ argType →
      materializeCallArg argType (CallArgSlot.scalarVal v) funcInputs argNo =
        Option.none) ∧
    (v.ty = argType → funcInputs[argNo]? = Option.some t → v.ty ≠ t →
      materializeCallArg argType (CallArgSlot.scalarVal v) funcInputs argNo =
        Option.some (CallArgMaterialized.scalar
          (ScalarArgResult.bitcasted v t))) ∧
    (v.ty = argType → funcInputs[argNo]? = Option.some v.ty →
      materializeCallArg argType (CallArgSlot.scalarVal v) funcInputs argNo =
        Option.some (CallArgMaterialized.scalar (ScalarArgResult.direct v))) ∧
    (v.ty = argType → funcInputs[argNo]? = Option.none →
      materializeCallArg argType (CallArgSlot.scalarVal v) funcInputs argNo =
        Option.some (CallArgMaterialized.scalar (ScalarArgResult.direct v)))
    := by
  refine ⟨?_, ?_, ?_, ?_⟩
  · intro hint hne
    simp [materializeCallArg, hrec, materializeScalarArg, hint,
      bne_iff_ne, (Ne.symm hne)]
  · intro heq hin hne
    simp [materializeCallArg, hrec, materializeScalarArg, heq, hin,
      bne_iff_ne, hne]
    exact heq ▸ hne
  · intro heq hin
    simp [materializeCallArg, hrec, materializeScalarArg, heq, hin]
  · intro heq hin
    simp [materializeCallArg, hrec, materializeScalarArg, heq, hin]

/-- C3, witness: the amended theorem at concrete inputs — a wider 64-bit
integer fed to a 32-bit slot faults, and a float value disagreeing with
the function-type input is bitcast. -/
theorem scalarArgNoTruncation_w :
    materializeCallArg (CirType.int true 32)
      (CallArgSlot.scalarVal { ty := CirType.int true 64 }) [] 0 =
      Option.none ∧
    materializeCallArg (CirType.float 0)
      (CallArgSlot.scalarVal { ty := CirType.float 0 }) [CirType.float 1] 0 =
      Option.some (CallArgMaterialized.scalar
        (ScalarArgResult.bitcasted { ty := CirType.float 0 }
          (CirType.float 1))) := by
  constructor
  · exact (scalarArgNoTruncation (CirType.int true 32)
      { ty := CirType.int true 64 } [] 0 CirType.void (by decide)).1
      (by decide) (by decide)
  · exact (scalarArgNoTruncation (CirType.float 0) { ty := CirType.float 0 }
      [CirType.float 1] 0 (CirType.float 1) (by decide)).2.1
      (by decide) (by decide) (by decide)

/-- C4, counterexample.  The claim states that when the in-memory machine
shape differs from the coerced parameter shape the address is
reinterpreted and the value loaded from it.  In the code a differing
shape hits `llvm_unreachable("NYI")` (CIRGenCall.cpp:522-523): an
aggregate stored as record #2 fed to a slot coerced to record #1 faults
instead of being reinterpret-loaded. -/
theorem aggShapeMismatchFaults :
    materializeCallArg (CirType.record 1)
      (CallArgSlot.aggregate { base := 0, elementType := CirType.record 2 })
      [] 0 = Option.none := by
  decide

/-- C4, amended: for an aggregate argument whose in-memory machine shape
equals the coerced parameter shape, materialization is a straight load of
the source address with no bit-reinterpretation step (the address reaches
the load unchanged); when the shapes differ the code raises the internal
not-yet-implemented fault instead of reinterpreting and loading. -/
theorem aggArgStraightLoadOrFault (rid : Nat) (src : Address)
    (funcInputs : List CirType) (argNo : Nat) :
    (src.elementType = CirType.record rid →
      materializeCallArg (CirType.record rid) (CallArgSlot.aggregate src)
          funcInputs argNo =
        Option.some (CallArgMaterialized.aggregate (AggArgResult.loaded src)))
    ∧
    (src.elementType ≠ CirType.record rid →
      materializeCallArg (CirType.record rid) (CallArgSlot.aggregate src)
          funcInputs argNo = Option.none) := by
  constructor
  · intro heq
    simp [materializeCallArg, CirType.isRecordType, materializeAggArg, heq,
      createElementBitCast]
  · intro hne
    simp [materializeCallArg, CirType.isRecordType, materializeAggArg,
      bne_iff_ne, hne]

/-- C4, witness: the amended theorem at a concrete input — a matching
shape is materialized as a straight load of the unchanged source
address. -/
theorem aggArgStraightLoadOrFault_w :
    materializeCallArg (CirType.record 3)
      (CallArgSlot.aggregate { base := 7, elementType := CirType.record 3 })
      [] 0 =
      Option.some (CallArgMaterialized.aggregate
        (AggArgResult.loaded { base := 7, elementType := CirType.record 3 }))
    :=
  (aggArgStraightLoadOrFault 3
    { base := 7, elementType := CirType.record 3 } [] 0).1 (by decide)

/-- The prototype condition under which `AddAttributesFromFunctionProtoType`
sets no-throw (CIRGenCall.cpp:163-164): the exception specification is not
unresolved, and the prototype is non-throwing. -/
def protoNoThrow : Option FunctionProtoTypeModel → Bool
  | Option.none => false
  | Option.some p => !isUnresolvedExceptionSpec p.exceptionSpecType && p.nothrow

/-- The declaration-side no-throw source: the target declaration's
explicit attribute, or its function prototype's resolved non-throwing
exception specification. -/
def declNoThrow (td : TargetDeclModel) : Bool :=
  td.hasNoThrowAttr ||
    (match td.asFunctionDecl with
     | Option.none => false
     | Option.some fn => protoNoThrow fn.protoType)

/-- Helper: adding attributes from a prototype ors in exactly the resolved
non-throwing condition. -/
theorem addAttrsProto_noThrow (attrs : FuncAttrSet)
    (p : Option FunctionProtoTypeModel) :
    (addAttributesFromFunctionProtoType attrs p).noThrow =
      (attrs.noThrow || protoNoThrow p) := by
  cases p with
  | none => simp [addAttributesFromFunctionProtoType, protoNoThrow]
  | some q =>
    simp only [addAttributesFromFunctionProtoType, protoNoThrow]
    cases hc : (!isUnresolvedExceptionSpec q.exceptionSpecType && q.nothrow) <;>
      simp [hc]

/-- Helper: adding attributes from a prototype never touches no-return. -/
theorem addAttrsProto_noReturn (attrs : FuncAttrSet)
    (p : Option FunctionProtoTypeModel) :
    (addAttributesFromFunctionProtoType attrs p).noReturn = attrs.noReturn := by
  cases p with
  | none => rfl
  | some q =>
    simp only [addAttributesFromFunctionProtoType]
    cases hc : (!isUnresolvedExceptionSpec q.exceptionSpecType && q.nothrow) <;>
      simp [hc]

/-- Helper: the function-declaration sub-block ors in exactly the
declaration prototype's resolved non-throwing condition. -/
theorem fnDeclAttributes_noThrow (attrs : FuncAttrSet)
    (fn : CalleeFnDeclModel) (attrOnCallSite : Bool) :
    (fnDeclAttributes attrs fn attrOnCallSite).noThrow =
      (attrs.noThrow || protoNoThrow fn.protoType) := by
  simp only [fnDeclAttributes, ite_self]
  exact addAttrsProto_noThrow attrs fn.protoType

/-- Helper: the function-declaration sub-block never touches no-return
(its no-return branch is empty in the source). -/
theorem fnDeclAttributes_noReturn (attrs : FuncAttrSet)
    (fn : CalleeFnDeclModel) (attrOnCallSite : Bool) :
    (fnDeclAttributes attrs fn attrOnCallSite).noReturn = attrs.noReturn := by
  simp only [fnDeclAttributes, ite_self]
  exact addAttrsProto_noReturn attrs fn.protoType

/-- Helper: the OpenCL kernel sub-block never touches no-throw. -/
theorem openCLKernelAttributes_noThrow (lo : LangOptsModel)
    (attrs : FuncAttrSet) (td : TargetDeclModel) :
    (openCLKernelAttributes lo attrs td).noThrow = attrs.noThrow := by
  unfold openCLKernelAttributes
  (repeat' split) <;> rfl

/-- Helper: the OpenCL kernel sub-block never touches no-return. -/
theorem openCLKernelAttributes_noReturn (lo : LangOptsModel)
    (attrs : FuncAttrSet) (td : TargetDeclModel) :
    (openCLKernelAttributes lo attrs td).noReturn = attrs.noReturn := by
  unfold openCLKernelAttributes
  (repeat' split) <;> rfl

/-- Helper: the CUDA kernel-name sub-block never touches no-throw. -/
theorem cudaKernelNameAttribute_noThrow (lo : LangOptsModel)
    (attrs : FuncAttrSet) (td : TargetDeclModel) :
    (cudaKernelNameAttribute lo attrs td).noThrow = attrs.noThrow := by
  unfold cudaKernelNameAttribute
  split <;> rfl

/-- Helper: the CUDA kernel-name sub-block never touches no-return. -/
theorem cudaKernelNameAttribute_noReturn (lo : LangOptsModel)
    (attrs : FuncAttrSet) (td : TargetDeclModel) :
    (cudaKernelNameAttribute lo attrs td).noReturn = attrs.noReturn := by
  unfold cudaKernelNameAttribute
  split <;> rfl

/-- Helper: the target-declaration block ors in exactly the
declaration-side no-throw sources. -/
theorem targetDeclAttributes_noThrow (lo : LangOptsModel)
    (attrs : FuncAttrSet) (td : TargetDeclModel) (attrOnCallSite : Bool) :
    (targetDeclAttributes lo attrs td attrOnCallSite).noThrow =
      (attrs.noThrow || declNoThrow td) := by
  unfold targetDeclAttributes declNoThrow
  rw [cudaKernelNameAttribute_noThrow, openCLKernelAttributes_noThrow]
  cases hfd : td.asFunctionDecl <;>
    cases htd : td.hasNoThrowAttr <;>
      simp [hfd, htd, fnDeclAttributes_noThrow]

/-- Helper: the target-declaration block never touches no-return. -/
theorem targetDeclAttributes_noReturn (lo : LangOptsModel)
    (attrs : FuncAttrSet) (td : TargetDeclModel) (attrOnCallSite : Bool) :
    (targetDeclAttributes lo attrs td attrOnCallSite).noReturn =
      attrs.noReturn := by
  unfold targetDeclAttributes
  rw [cudaKernelNameAttribute_noReturn, openCLKernelAttributes_noReturn]
  cases hfd : td.asFunctionDecl <;>
    cases htd : td.hasNoThrowAttr <;>
      simp [hfd, htd, fnDeclAttributes_noReturn]

/-- Helper: outside the SYCL/OpenCL/CUDA-device modes the trivial default
attributes only (possibly) add convergence. -/
theorem trivialDefaults_noDevice (lo : LangOptsModel) (attrs : FuncAttrSet)
    (hsycl : lo.syclIsDevice = false) (hocl : lo.openCL = false)
    (hdev : ((lo.cuda || lo.hip) && lo.cudaIsDevice) = false) :
    getTrivialDefaultFunctionAttributesModel lo attrs =
      Option.some
        (if lo.assumeConvergent then { attrs with convergent := true }
         else attrs) := by
  unfold getTrivialDefaultFunctionAttributesModel
  cases hconv : lo.assumeConvergent <;> simp [hsycl, hocl, hdev, hconv]

/-- Helper: the trivial defaults never touch no-return. -/
theorem trivialDefaults_noReturn (lo : LangOptsModel) (attrs a : FuncAttrSet)
    (h : getTrivialDefaultFunctionAttributesModel lo attrs = Option.some a) :
    a.noReturn = attrs.noReturn := by
  simp only [getTrivialDefaultFunctionAttributesModel] at h
  split at h
  · exact Option.noConfusion h
  · split at h <;> (injection h with h2; subst h2) <;>
      cases hconv : lo.assumeConvergent <;> simp [hconv]

/-- C5, counterexample.  The claim states that no-throw is synthesized
only from an explicit declaration attribute or a resolved non-throwing
exception specification, that an unresolved specification is never
treated as no-throw, and that a no-throw call always takes the plain
(non-try-wrapped) path.  Both halves fail on the code outside the normal
configuration: in OpenCL mode the global defaults set no-throw wholesale
(CIRGenCall.cpp:1432-1436), so a callee whose exception specification is
still unevaluated — with no explicit attribute anywhere — is nevertheless
marked no-throw; and in a function using SEH try, `CannotThrow` is forced
false (CIRGenCall.cpp:590-592), so a call whose attribute set proves
no-throw is still emitted on the try-wrapped path. -/
theorem unresolvedSpecNoThrowUnderDeviceDefaults :
    ((constructAttributeList { openCL := true } sampleFI
        (Option.some
          { returnType := ct 0, params := [], variadic := false
            extParamInfos := Option.none, extInfo := {}
            exceptionSpecType := ExceptionSpecificationType.unevaluated
            nothrow := false })
        (Option.some {}) true).map (fun r => r.1.noThrow) =
      Option.some true) ∧
    emitCallLikeOpKind
      (computeIsInvoke
        (computeCannotThrow true false false { noThrow := true } false) true)
      false = EmittedCallKind.tryDirect := by
  decide

/-- C5, amended: outside the device/offload language modes (whose global
defaults add no-throw wholesale, CIRGenCall.cpp:1432-1436), the
synthesized no-throw attribute is exactly the disjunction of the callee
prototype's resolved non-throwing exception specification and the
declaration-side sources (explicit attribute, or the declaration's own
resolved non-throwing prototype) — so an unresolved exception
specification alone never yields no-throw — and, in a function not using
SEH try, whenever no-throw is present the emitter's `CannotThrow`
computation clears the invoke flag and `emitCallLikeOp` selects a plain
(non-try-wrapped) call. -/
theorem noThrowSynthesisSelectsPlainCall (lo : LangOptsModel)
    (fi : CIRGenFunctionInfo) (calleeProto : Option FunctionProtoTypeModel)
    (td : TargetDeclModel) (attrOnCallSite : Bool)
    (cleanupPadScope msvcxxPersonality calleeExtraNoThrow isInvokeDest
      isIndirect : Bool)
    (hsycl : lo.syclIsDevice = false) (hocl : lo.openCL = false)
    (hdev : ((lo.cuda || lo.hip) && lo.cudaIsDevice) = false) :
    ((constructAttributeList lo fi calleeProto (Option.some td)
        attrOnCallSite).map (fun r => r.1.noThrow) =
      Option.some (protoNoThrow calleeProto || declNoThrow td)) ∧
    (∀ attrs : FuncAttrSet, attrs.noThrow = true →
      computeIsInvoke
        (computeCannotThrow false cleanupPadScope msvcxxPersonality attrs
          calleeExtraNoThrow) isInvokeDest = false ∧
      (emitCallLikeOpKind
          (computeIsInvoke
            (computeCannotThrow false cleanupPadScope msvcxxPersonality attrs
              calleeExtraNoThrow) isInvokeDest) isIndirect =
          EmittedCallKind.direct ∨
        emitCallLikeOpKind
          (computeIsInvoke
            (computeCannotThrow false cleanupPadScope msvcxxPersonality attrs
              calleeExtraNoThrow) isInvokeDest) isIndirect =
          EmittedCallKind.indirect)) := by
  constructor
  · simp only [constructAttributeList, getDefaultFunctionAttributesModel]
    rw [trivialDefaults_noDevice lo _ hsycl hocl hdev]
    cases hconv : lo.assumeConvergent <;>
      simp [hconv, targetDeclAttributes_noThrow, addAttrsProto_noThrow]
  · intro attrs hThrow
    unfold computeCannotThrow computeIsInvoke emitCallLikeOpKind
    simp only [hThrow, Bool.true_or, if_true, if_false]
    cases cleanupPadScope && msvcxxPersonality <;> cases isIndirect <;> simp

/-- C5, witness: the synthesis equation and the plain-call selection at
concrete inputs — a callee prototype with a resolved non-throwing
exception specification yields the no-throw attribute, and the invoke
flag is cleared. -/
theorem noThrowSynthesisSelectsPlainCall_w :
    ((constructAttributeList {} sampleFI
        (Option.some
          { returnType := ct 0, params := [], variadic := false
            extParamInfos := Option.none, extInfo := {}
            exceptionSpecType := ExceptionSpecificationType.basicNoexcept
            nothrow := true })
        (Option.some {}) true).map (fun r => r.1.noThrow) =
      Option.some true) ∧
    computeIsInvoke
      (computeCannotThrow false false false { noThrow := true } false)
      true = false := by
  constructor
  · exact (noThrowSynthesisSelectsPlainCall {} sampleFI _ {} true false false
      false true false (by decide) (by decide) (by decide)).1
  · exact ((noThrowSynthesisSelectsPlainCall {} sampleFI Option.none {} true
      false false false true false (by decide) (by decide) (by decide)).2
      { noThrow := true } (by decide)).1

/-- C6, counterexample.  The claim states that for a non-virtual call the
declaration's no-return attribute is propagated into the synthesized
attribute set when the declaration carries it.  In the code the
propagation branch is empty (`if (Fn->isNoReturn()) ;`,
CIRGenCall.cpp:243-248, with `// TODO: NoReturn` at line 205): a call-site
synthesis for a non-virtual function declared no-return yields an
attribute set without no-return. -/
theorem nonVirtualNoReturnNotPropagated :
    (constructAttributeList {} sampleFI Option.none
        (Option.some
          { asFunctionDecl := Option.some
              { protoType := Option.none, isNoReturn := true
                isVirtualCXXMethod := false } })
        true).map (fun r => r.1.noReturn) = Option.some false := by
  decide

/-- C6, amended: the virtual-call suppression guard exists, but no-return
propagation itself is unimplemented — the synthesized attribute set never
contains no-return, for virtual and non-virtual callees, call sites and
definitions alike. -/
theorem noReturnNeverSynthesized (lo : LangOptsModel)
    (fi : CIRGenFunctionInfo) (calleeProto : Option FunctionProtoTypeModel)
    (targetDecl : Option TargetDeclModel) (attrOnCallSite : Bool) :
    (constructAttributeList lo fi calleeProto targetDecl attrOnCallSite).all
      (fun r => r.1.noReturn == false) = true := by
  simp only [constructAttributeList, getDefaultFunctionAttributesModel]
  cases targetDecl with
  | none =>
    cases h : getTrivialDefaultFunctionAttributesModel lo
        (addAttributesFromFunctionProtoType {} calleeProto) with
    | none => simp [h, Option.all]
    | some a =>
      have h2 := trivialDefaults_noReturn lo _ a h
      rw [addAttrsProto_noReturn] at h2
      simp [h, Option.all, h2]
  | some td =>
    cases h : getTrivialDefaultFunctionAttributesModel lo
        (targetDeclAttributes lo
          (addAttributesFromFunctionProtoType {} calleeProto) td
          attrOnCallSite) with
    | none => simp [h, Option.all]
    | some a =>
      have h2 := trivialDefaults_noReturn lo _ a h
      rw [targetDeclAttributes_noReturn, addAttrsProto_noReturn] at h2
      simp [h, Option.all, h2]

/-- Helper: the parameter-keeping test of `inheritingCtorHasParams` is the
negation of "base-subobject variant, virtual-base shadow, ABI with
constructor variants". -/
theorem inheritingCtorHasParams_eq (vb : Bool) (t : CXXCtorType) (v : Bool) :
    inheritingCtorHasParams vb t v =
      !(t != CXXCtorType.complete && vb && v) := by
  cases vb <;> cases v <;> cases t <;> decide

/-- An ABI with neither constructor variants nor extra structor
arguments, for the C7 counterexample. -/
def plainAbi : ABIPolicyModel :=
  { hasConstructorVariants := false, structorPrefixTypes := []
    structorSuffixTypes := [], hasThisReturn := false
    hasMostDerivedReturn := false, voidTy := ct 100, voidPtrTy := ct 101 }

/-- An inheriting constructor whose shadow declaration does NOT construct
a virtual base, with one formal parameter. -/
def inheritingCtorNoVB : StructorDeclModel :=
  { thisType := ct 0, inheritedCtor := Option.some false
    formalType :=
      { returnType := ct 100, params := [ct 1], variadic := false
        extParamInfos := Option.none, extInfo := {} } }

/-- C7, counterexample.  The claim states formal parameters are dropped
exactly when the shadow declaration does not construct a virtual base and
the ABI has no constructor variants.  The code keeps the parameters in
precisely that situation (`inheritingCtorHasParams`,
CIRGenCall.cpp:1150-1152, is `Type == Ctor_Complete ||
!constructsVirtualBase() || !hasConstructorVariants()`): arranging a
base-variant inheriting constructor with no virtual base under an ABI
without constructor variants still passes the formal parameter after the
receiver. -/
theorem inheritingCtorKeepsParamsWhereClaimDrops :
    (arrangeCXXStructorDeclaration id (ct 50) plainAbi inheritingCtorNoVB
        CXXCtorType.base).map (fun fi => fi.arguments) =
      Option.some [ct 0, ct 1] ∧
    ([ct 0, ct 1] : List CanQualType) ≠ [ct 0] := by
  decide

/-- C7, amended: arranging an inheriting constructor drops all formal
parameters (passing only the implicit receiver plus ABI-added structor
arguments) exactly when the constructor is a non-complete-object variant,
the targeted base's shadow declaration DOES construct a virtual base, and
the ABI HAS constructor variants; otherwise the inherited prototype's
parameters are appended after the implicit receiver (and any ABI prefix
arguments). -/
theorem inheritingCtorParamDropExactly (ccLower : Nat → Nat)
    (sizeTy : CanQualType) (abi : ABIPolicyModel) (md : StructorDeclModel)
    (vb : Bool) (ctorType : CXXCtorType)
    (hinh : md.inheritedCtor = Option.some vb)
    (hext : md.formalType.extParamInfos = Option.none)
    (hthis : abi.hasThisReturn = false) :
    (arrangeCXXStructorDeclaration ccLower sizeTy abi md ctorType).map
        (fun fi => fi.arguments) =
      Option.some (md.thisType :: (abi.structorPrefixTypes ++
        ((if ctorType != CXXCtorType.complete && vb &&
              abi.hasConstructorVariants
          then ([] : List CanQualType) else md.formalType.params) ++
          abi.structorSuffixTypes))) := by
  unfold arrangeCXXStructorDeclaration
  rw [hinh]
  simp only [inheritingCtorHasParams_eq]
  cases hdrop : (ctorType != CXXCtorType.complete && vb &&
      abi.hasConstructorVariants) with
  | true =>
    simp only [hdrop, Bool.not_true, if_false, Bool.false_eq_true]
    cases hvar : md.formalType.variadic <;>
      simp [buildStructorSignature, hthis, hvar, arrangeCIRFunctionInfoCGT,
        CIRGenFunctionInfo.create, RequiredArgs.allowsOptionalArgs,
        RequiredArgs.numRequired]
  | false =>
    simp only [hdrop, Bool.not_false, if_true]
    cases hvar : md.formalType.variadic <;>
      simp [appendParameterTypes, hext, buildStructorSignature, hthis, hvar,
        arrangeCIRFunctionInfoCGT, CIRGenFunctionInfo.create,
        RequiredArgs.allowsOptionalArgs, RequiredArgs.numRequired]

/-- C7, witness: the amended theorem at a concrete input — a base-variant
inheriting constructor whose shadow constructs a virtual base, under an
ABI with constructor variants and one prefix argument, passes only the
receiver and the ABI argument. -/
theorem inheritingCtorParamDropExactly_w :
    (arrangeCXXStructorDeclaration id (ct 50)
        { hasConstructorVariants := true, structorPrefixTypes := [ct 9]
          structorSuffixTypes := [], hasThisReturn := false
          hasMostDerivedReturn := false, voidTy := ct 100
          voidPtrTy := ct 101 }
        { thisType := ct 0, inheritedCtor := Option.some true
          formalType :=
            { returnType := ct 100, params := [ct 1], variadic := false
              extParamInfos := Option.none, extInfo := {} } }
        CXXCtorType.base).map (fun fi => fi.arguments) =
      Option.some [ct 0, ct 9] := by
  rw [inheritingCtorParamDropExactly id (ct 50) _ _ true CXXCtorType.base rfl
    rfl rfl]
  decide

/-- C8: for a scalar, non-void call result, the extraction hands the value
back through a store-then-reload round trip via the return slot (or a
fresh temporary) exactly when the point of use lives in a different
control-flow region than the call construct, and hands it back directly
when the regions coincide (CIRGenCall.cpp:707-725 and
`getRValueThroughMemory`, CIRGenCall.cpp:410-419). -/
theorem scalarReturnRegionRoundTrip (retTy : CirType) (r : CirValue)
    (returnSlot : Option Address) (cur callR : Nat) (tmp : Address)
    (hv : (retTy == CirType.void) = false) (hty : r.ty = retTy) :
    (cur ≠ callR →
      extractCallResult retTy EvaluationKind.scalar [r] returnSlot cur callR
          tmp =
        Option.some
          (ReturnExtraction.scalarThroughMemory (returnSlot.getD tmp) r)) ∧
    (cur = callR →
      extractCallResult retTy EvaluationKind.scalar [r] returnSlot cur callR
          tmp =
        Option.some (ReturnExtraction.scalarDirect r)) := by
  constructor
  · intro hne
    simp [extractCallResult, hv, hty, bne_iff_ne, hne]
  · intro heq
    simp [extractCallResult, hv, hty, heq]

/-- C8, witness: the theorem at concrete inputs — a call in a synthesized
sub-region (region 2) used from region 1 is round-tripped through the
fresh temporary. -/
theorem scalarReturnRegionRoundTrip_w :
    extractCallResult (CirType.int true 32) EvaluationKind.scalar
      [{ ty := CirType.int true 32 }] Option.none 1 2
      { base := 0, elementType := CirType.int true 32 } =
      Option.some
        (ReturnExtraction.scalarThroughMemory
          { base := 0, elementType := CirType.int true 32 }
          { ty := CirType.int true 32 }) :=
  (scalarReturnRegionRoundTrip (CirType.int true 32)
    { ty := CirType.int true 32 } Option.none 1 2
    { base := 0, elementType := CirType.int true 32 }
    (by decide) (by decide)).1 (by decide)

/-- C9: machine-type construction inserts the descriptor into the
in-progress set and removes it on exit — a descriptor already being
processed is rejected as the "Recursively being processed?" assertion
fault, and any non-faulting construction returns with the in-progress set
exactly as it was, so the descriptor is no longer in it
(CIRGenCall.cpp:94-114). -/
theorem functionTypeReentrancyGuard (convert : CanQualType → CirType)
    (beingProcessed : List Nat) (fiId : Nat) (fi : CIRGenFunctionInfo) :
    (beingProcessed.contains fiId = true →
      GetFunctionType convert beingProcessed fiId fi = Option.none) ∧
    (beingProcessed.contains fiId = false →
      (GetFunctionType convert beingProcessed fiId fi).isSome = true ∧
      (GetFunctionType convert beingProcessed fiId fi).map Prod.snd =
        Option.some beingProcessed) := by
  constructor
  · intro h
    have h' : fiId ∈ beingProcessed := by simpa using h
    simp [GetFunctionType, h']
  · intro h
    have h' : fiId ∉ beingProcessed := by simpa using h
    simp [GetFunctionType, h', List.erase_cons_head]

/-- C9, witness: the theorem at a concrete input — constructing the
machine type of a descriptor already in the in-progress set faults. -/
theorem functionTypeReentrancyGuard_w :
    GetFunctionType (fun _ => CirType.void) [3] 3 sampleFI = Option.none :=
  (functionTypeReentrancyGuard (fun _ => CirType.void) [3] 3 sampleFI).1
    (by decide)

/-- C10: the machine function type built from a descriptor has converted
types for exactly the required arguments (the variadic optional tail
contributes no parameter slots, witnessed by the `min` length), its
variadic flag equals the descriptor's variadic property, and a null
converted return type is replaced by the void type
(CIRGenCall.cpp:99-113). -/
theorem machineFunctionTypeShape (convert : CanQualType → CirType)
    (beingProcessed : List Nat) (fiId : Nat) (fi : CIRGenFunctionInfo)
    (hnotin : beingProcessed.contains fiId = false) :
    GetFunctionType convert beingProcessed fiId fi =
      Option.some
        ({ inputs := fi.requiredArguments.map convert
           result :=
             if convert fi.returnType == CirType.null then CirType.void
             else convert fi.returnType
           varArg := fi.isVariadic }, beingProcessed) ∧
    (fi.requiredArguments.map convert).length =
      min fi.getNumRequiredArgs fi.arguments.length := by
  constructor
  · have h' : fiId ∉ beingProcessed := by simpa using hnotin
    simp [GetFunctionType, h', List.erase_cons_head]
  · simp [CIRGenFunctionInfo.requiredArguments, List.length_take]

/-- C10, witness: the theorem at a concrete input — a variadic descriptor
with one required of two arguments gets exactly one converted input, and
its null converted return type becomes void. -/
theorem machineFunctionTypeShape_w :
    GetFunctionType (fun _ => CirType.null) [] 5 sampleVariadicFI =
      Option.some
        ({ inputs := [CirType.null], result := CirType.void, varArg := true },
          []) := by
  rw [(machineFunctionTypeShape (fun _ => CirType.null) [] 5 sampleVariadicFI
    (by decide)).1]
  decide

end CIRGenCallSpec
